import Mathlib

/-!
Verification of the FinMark CSV ETL and rule-based classification pipeline.

The definitions below are a shallow embedding of the Python sources:
* `ETL` embeds `etl_pipeline.py` (class `FinMarkETLPipeline`);
* `DbSetup` embeds `database_setup.py` (function `setup_database` and its helpers).

Modelling conventions:
* pandas DataFrames become `List` of row structures; a missing CSV file becomes
  `Option.none` on the corresponding pipeline input;
* Python floats become `ℚ`; the random draws (`np.random.normal`,
  `np.random.randint`, `random.gauss`, `random.randint`) become explicit
  parameters, quantified over in the theorems;
* the Django ORM store becomes the `Store` structure of in-memory lists; store
  writes are modelled as always succeeding (the per-record `except` branches
  around ORM calls are unreachable in this embedding);
* `str.strip` is modelled by `pyStrip` and `str.lower` by `pyLower`
  (both agree with Python on the ASCII inputs handled here);
* timestamps are abstracted: only the hour-of-day enters the metric generator,
  so it is passed as a function of the loop index.
-/

/-- `startsWithChars pat l` is true when `pat` is a prefix of `l`
(character-by-character comparison). -/
def startsWithChars : List Char → List Char → Bool
  | [], _ => true
  | _ :: _, [] => false
  | p :: ps, c :: cs => p == c && startsWithChars ps cs

/-- `hasSubChars pat l` is true when `pat` occurs as a contiguous run inside
`l`; it models Python's `pat in l` substring test on the exploded string. -/
def hasSubChars (pat : List Char) : List Char → Bool
  | [] => startsWithChars pat []
  | c :: cs => startsWithChars pat (c :: cs) || hasSubChars pat cs

/-- `strContains s pat` models Python's `pat in s` substring containment. -/
def strContains (s pat : String) : Bool :=
  hasSubChars pat.toList s.toList

/-- `pyLower` models Python's `str.lower` (ASCII case folding, which covers
every keyword and input the pipeline compares); built directly on the
character list so that it reduces inside the kernel. -/
def pyLower (s : String) : String :=
  ⟨s.data.map Char.toLower⟩

/-- `pyStrip` models Python's `str.strip`: drop leading and trailing
whitespace. -/
def pyStrip (s : String) : String :=
  ⟨((s.data.dropWhile Char.isWhitespace).reverse.dropWhile Char.isWhitespace).reverse⟩

/-- `splitDots l` models Python's `str.split('.')` on the exploded string:
groups of characters between dots, with empty groups for adjacent dots. -/
def splitDots : List Char → List (List Char)
  | [] => [[]]
  | c :: cs =>
    if c = '.' then [] :: splitDots cs
    else
      match splitDots cs with
      | [] => [[c]]
      | g :: gs => (c :: g) :: gs

/-- Inverse of `splitDots`: re-joins groups with a dot between them. -/
def joinDots : List (List Char) → List Char
  | [] => []
  | [g] => g
  | g :: g2 :: gs => g ++ '.' :: joinDots (g2 :: gs)

theorem splitDots_ne_nil (l : List Char) : splitDots l ≠ [] := by
  induction l with
  | nil => simp [splitDots]
  | cons c cs ih =>
    by_cases h : c = '.'
    · simp [splitDots, h]
    · simp only [splitDots, if_neg h]
      rcases hs : splitDots cs with _ | ⟨g, gs⟩
      · exact absurd hs ih
      · simp

theorem joinDots_splitDots (l : List Char) : joinDots (splitDots l) = l := by
  induction l with
  | nil => rfl
  | cons c cs ih =>
    by_cases h : c = '.'
    · subst h
      simp only [splitDots, if_pos rfl]
      rcases hs : splitDots cs with _ | ⟨g, gs⟩
      · exact absurd hs (splitDots_ne_nil cs)
      · rw [hs] at ih
        simp [joinDots, ih]
    · simp only [splitDots, if_neg h]
      rcases hs : splitDots cs with _ | ⟨g, gs⟩
      · exact absurd hs (splitDots_ne_nil cs)
      · rw [hs] at ih
        rcases gs with _ | ⟨g2, gs2⟩
        · simpa [joinDots] using congrArg (c :: ·) ih
        · simpa [joinDots] using congrArg (c :: ·) ih

theorem splitDots_append_cons (a rest : List Char) (h : '.' ∉ a) :
    splitDots (a ++ '.' :: rest) = a :: splitDots rest := by
  induction a with
  | nil => simp [splitDots]
  | cons c a' ih =>
    have hc : c ≠ '.' := fun hc => h (hc ▸ List.mem_cons_self c a')
    have ha' : '.' ∉ a' := fun hm => h (List.mem_cons_of_mem c hm)
    simp only [List.cons_append, splitDots, if_neg hc, List.append_eq, ih ha']

theorem splitDots_of_not_mem (a : List Char) (h : '.' ∉ a) :
    splitDots a = [a] := by
  induction a with
  | nil => rfl
  | cons c a' ih =>
    have hc : c ≠ '.' := fun hc => h (hc ▸ List.mem_cons_self c a')
    have ha' : '.' ∉ a' := fun hm => h (List.mem_cons_of_mem c hm)
    simp [splitDots, if_neg hc, ih ha']

/-- The text a Python `^...$` anchored pattern has to cover: `re`'s `$`
matches at the end of the string or just before one newline at the end of
the string, so the pattern matches the whole string or the whole string
minus a single trailing newline. -/
def stripFinalNewline (l : List Char) : List Char :=
  if l.getLast? = some '\n' then l.dropLast else l

/-- Indexed map, used to thread the per-row random draw through a row list. -/
def mapWithIndex (f : Nat → α → β) : Nat → List α → List β
  | _, [] => []
  | i, x :: xs => f i x :: mapWithIndex f (i + 1) xs

theorem length_mapWithIndex (f : Nat → α → β) (i : Nat) (l : List α) :
    (mapWithIndex f i l).length = l.length := by
  induction l generalizing i with
  | nil => rfl
  | cons x xs ih => simp [mapWithIndex, ih]

/-! ## Data model (`apps/security/models.py`, `apps/analytics/models.py`) -/

/-- One raw row of `network_inventory.csv` (columns Device, IP_Address, Role,
OS, Notes), already stringified as by `str(row.get(...))`. -/
structure RawDeviceRow where
  device : String
  ip_address : String
  role : String
  os : String
  notes : String
deriving DecidableEq, Repr

/-- One raw row of `event_logs.csv` (columns event_type, user_id, product_id,
amount). The unused `event_time` column is not modelled. -/
structure RawEventRow where
  event_type : String
  user_id : String
  product_id : String
  amount : ℚ
deriving DecidableEq, Repr

/-- One raw row of `marketing_summary.csv`; extracted by `run_pipeline` but
never transformed or loaded there. -/
structure MarketingRow where
  users_active : ℚ
  total_sales : ℚ
  new_customers : ℚ
deriving DecidableEq, Repr

/-- Persisted `Device` row (`apps/security/models.py`); the generated UUID
primary key is not modelled, `hostname` is the upsert key. -/
structure Device where
  hostname : String
  ip_address : String
  device_type : String
  os : String
  status : String
  notes : String
deriving DecidableEq, Repr

/-- Persisted `SecurityEvent` row; the generated UUID key and the
auto-now timestamp are not modelled. -/
structure SecurityEvent where
  event_type : String
  severity : String
  source_ip : String
  details : String
  is_threat : Bool
deriving DecidableEq, Repr

/-- Persisted `SystemMetrics` row; the timestamp is abstracted to the
`hours_ago` loop index that produced it. -/
structure MetricSample where
  hours_ago : Nat
  cpu_usage : ℚ
  memory_usage : ℚ
  response_time : ℤ
deriving DecidableEq, Repr

/-- Persisted `UserActivity` row (only the fields any loader writes that a
claim could observe; the JSON `details` payload is not modelled). -/
structure UserActivity where
  event_type : String
  ip_address : String
deriving DecidableEq, Repr

/-- The shared relational store, one list per entity type. -/
structure Store where
  devices : List Device
  events : List SecurityEvent
  metrics : List MetricSample
  activities : List UserActivity
deriving DecidableEq, Repr

/-- The empty store. -/
def emptyStore : Store := ⟨[], [], [], []⟩

/-- The three CSV inputs of a pipeline run; `none` models a missing (or
undecodable) file. -/
structure PipelineInputs where
  networkCsv : Option (List RawDeviceRow)
  eventCsv : Option (List RawEventRow)
  marketingCsv : Option (List MarketingRow)

/-- The run summary built at the end of `FinMarkETLPipeline.run_pipeline`. -/
structure RunSummary where
  pipeline_status : String
  records_devices : Nat
  records_security_events : Nat
  records_system_metrics : Nat
  total_records : Nat
  errors_count : Nat
  errors : List String
deriving DecidableEq, Repr

namespace ETL

/-! ## `etl_pipeline.py` — utility methods -/

/-- One group of the anchored regex `^(\d{1,3}\.){3}\d{1,3}$`
(etl_pipeline.py line 400): one to three digit characters. Python's `\d`
matches any Unicode decimal digit; `Char.isDigit` models its ASCII fragment
(`0`-`9`), so every faithfulness statement about the validator below is
scoped to ASCII inputs. -/
def isIpGroupB (g : List Char) : Bool :=
  decide (1 ≤ g.length) && decide (g.length ≤ 3) && g.all Char.isDigit

/-- Decimal value of a digit group, as computed by Python's `int(part)`
(which strips surrounding whitespace before parsing — see
`validate_ip_address`). -/
def groupVal (g : List Char) : Nat :=
  g.foldl (fun a c => a * 10 + (c.toNat - 48)) 0

/-- The regex-plus-value check of `_validate_ip_address`, applied to the
text the `^...$` anchors actually cover: the anchored regex matches exactly
when the dot-split of that text has four groups of one to three digits, and
then each group's integer value must lie in 0..255 (the lower bound is
vacuous for digit groups). -/
def quadCheck (l : List Char) : Bool :=
  match splitDots l with
  | [a, b, c, d] =>
    (isIpGroupB a && isIpGroupB b && isIpGroupB c && isIpGroupB d) &&
    (decide (groupVal a ≤ 255) && decide (groupVal b ≤ 255) &&
     decide (groupVal c ≤ 255) && decide (groupVal d ≤ 255))
  | _ => false

/-- `_validate_ip_address` (etl_pipeline.py lines 398-404). Python's
`re.match` with the `$`-terminated pattern matches the whole string or the
whole string minus one trailing newline, so the regex test runs on
`stripFinalNewline ip.toList`; the subsequent `ip.split('.')` runs on the
full string, but `int(part)` strips surrounding whitespace, so the 0..255
check over the newline-stripped groups coincides with the source's. In
particular the function accepts a dotted quad followed by one newline. -/
def validate_ip_address (ip : String) : Bool :=
  quadCheck (stripFinalNewline ip.toList)

/-- `_categorize_device_type` (etl_pipeline.py lines 406-419). -/
def categorize_device_type (role : String) : String :=
  let role_lower := pyLower role
  if strContains role_lower "router" then "router"
  else if strContains role_lower "server" then "server"
  else if strContains role_lower "printer" then "printer"
  else if strContains role_lower "pc" || strContains role_lower "client" then "workstation"
  else "workstation"

/-- Critical keyword list of `_determine_device_status` (line 425). -/
def critical_keywords : List String := ["no antivirus", "outdated", "no firewall", "vulnerable"]

/-- Warning keyword list of `_determine_device_status` (line 426). -/
def warning_keywords : List String := ["ssl", "tls", "update", "patch"]

/-- `_determine_device_status` (etl_pipeline.py lines 421-433). -/
def determine_device_status (notes : String) : String :=
  let notes_lower := pyLower notes
  if critical_keywords.any (fun k => strContains notes_lower k) then "critical"
  else if warning_keywords.any (fun k => strContains notes_lower k) then "warning"
  else "active"

/-- `_categorize_security_event` (etl_pipeline.py lines 435-448). -/
def categorize_security_event (event_type : String) : String × String × Bool :=
  let event_lower := pyLower event_type
  if strContains event_lower "login" then ("login_failure", "critical", true)
  else if strContains event_lower "checkout" then ("suspicious_traffic", "warning", false)
  else if strContains event_lower "wishlist" then ("unauthorized_access", "warning", true)
  else if strContains event_lower "profile" then ("suspicious_traffic", "info", false)
  else ("suspicious_traffic", "info", false)

/-- `_generate_source_ip` (etl_pipeline.py lines 450-457); `r` is the octet
drawn by `np.random.randint(1, 254)`. -/
def generate_source_ip (event_type : String) (r : Nat) : String :=
  if strContains (pyLower event_type) "login" then
    "203.0.113." ++ toString r
  else
    "192.168.1." ++ toString r

/-- Two-decimal rendering of a (positive) amount, modelling Python's
`f"{amount:.2f}"`; Python rounds ties to even, this rounds ties up — the
difference is irrelevant to every theorem below (no claim reads `details`). -/
def fmt2 (q : ℚ) : String :=
  let cents : ℤ := ⌊q * 100 + 1 / 2⌋
  toString (cents / 100) ++ "." ++
    (if cents % 100 < 10 then "0" ++ toString (cents % 100) else toString (cents % 100))

/-- `_create_event_details` (etl_pipeline.py lines 459-478). -/
def create_event_details (event_type user_id product_id : String) (amount : ℚ) : String :=
  let d0 := "Event Type: " ++ event_type
  let d1 := if user_id ≠ "unknown" then d0 ++ " | User: " ++ user_id else d0
  let d2 := if product_id ≠ "" then d1 ++ " | Product: " ++ product_id else d1
  let d3 := if 0 < amount then d2 ++ " | Amount: $" ++ fmt2 amount else d2
  if strContains (pyLower event_type) "login" then
    d3 ++ " | SECURITY: Multiple failed authentication attempts"
  else if strContains (pyLower event_type) "checkout" then
    d3 ++ " | BUSINESS: Transaction completed"
  else d3

/-! ## `etl_pipeline.py` — extraction phase

Each extractor returns the parsed table together with the error messages
appended to `self.errors`; a missing file yields the empty table and one
recorded extraction error (the `except` branches of lines 94-97, 125-127 and
143-146). -/

/-- `extract_network_inventory` (etl_pipeline.py lines 72-97). -/
def extract_network_inventory : Option (List RawDeviceRow) → List RawDeviceRow × List String
  | some rows => (rows, [])
  | none => ([], ["Network inventory extraction: file not found"])

/-- `extract_event_logs` (etl_pipeline.py lines 99-127). -/
def extract_event_logs : Option (List RawEventRow) → List RawEventRow × List String
  | some rows => (rows, [])
  | none => ([], ["Event logs extraction: No valid file found"])

/-- `extract_marketing_data` (etl_pipeline.py lines 129-146). -/
def extract_marketing_data : Option (List MarketingRow) → List MarketingRow × List String
  | some rows => (rows, [])
  | none => ([], ["Marketing data extraction: file not found"])

/-! ## `etl_pipeline.py` — transformation phase -/

/-- Body of the per-row loop of `clean_network_inventory` (lines 167-203):
strip the five fields, validate the IP, classify type and status. Rows whose
IP fails validation are skipped by the `continue` at line 179 — that branch
only emits a log warning and does NOT append to `self.errors`; the `except`
branch (lines 200-203) is unreachable for these pure field accesses. -/
def cleanDeviceRow (row : RawDeviceRow) : Device :=
  { hostname := pyStrip row.device
    ip_address := pyStrip row.ip_address
    device_type := categorize_device_type (pyStrip row.role)
    os := pyStrip row.os
    status := determine_device_status (pyStrip row.notes)
    notes := pyStrip row.notes }

/-- `clean_network_inventory` (etl_pipeline.py lines 150-206). -/
def clean_network_inventory (rows : List RawDeviceRow) : List Device :=
  rows.filterMap fun row =>
    if validate_ip_address (pyStrip row.ip_address) then some (cleanDeviceRow row)
    else none

/-- Body of the per-row loop of `clean_event_logs` (lines 229-258); `r` is
the octet drawn by `np.random.randint` inside `_generate_source_ip`. -/
def cleanEventRow (r : Nat) (row : RawEventRow) : SecurityEvent :=
  let event_type := pyStrip (pyLower row.event_type)
  let user_id := pyStrip row.user_id
  let cat := categorize_security_event event_type
  { event_type := cat.1
    severity := cat.2.1
    source_ip := generate_source_ip event_type r
    details := create_event_details event_type user_id row.product_id row.amount
    is_threat := cat.2.2 }

/-- `clean_event_logs` (etl_pipeline.py lines 208-261): only the first
`sample_size = min(100, len(df))` rows are transformed (lines 226-227);
`ipRand i` is the random octet drawn for row `i`. -/
def clean_event_logs (ipRand : Nat → Nat) (rows : List RawEventRow) : List SecurityEvent :=
  let sample_size := min 100 rows.length
  mapWithIndex (fun i row => cleanEventRow (ipRand i) row) 0 (rows.take sample_size)

/-- Python's `int()` float-to-int conversion (truncation toward zero). -/
def pyInt (q : ℚ) : ℤ :=
  if 0 ≤ q then ⌊q⌋ else ⌈q⌉

/-- Python's `round(x, 2)`: round to two decimals. Python rounds ties to
even, this rounds ties up; the difference never affects the range bounds
proved below. -/
def pyRound2 (q : ℚ) : ℚ :=
  (⌊q * 100 + 1 / 2⌋ : ℚ) / 100

/-- Body of the per-hour loop of `generate_system_metrics` (lines 279-303):
`hour` is `timestamp.hour`, the three noise arguments are the
`np.random.normal` draws. -/
def generateMetricSample (hoursAgo hour : Nat) (cpuNoise memNoise respNoise : ℚ) : MetricSample :=
  let is_business_hours : Bool := 8 ≤ hour && hour ≤ 18
  let base_cpu : ℚ := if is_business_hours then 60 else 30
  let base_memory : ℚ := if is_business_hours then 70 else 40
  let base_response : ℚ := if is_business_hours then 200 else 100
  let cpu_usage := max 10 (min 95 (base_cpu + cpuNoise))
  let memory_usage := max 20 (min 90 (base_memory + memNoise))
  let response_time := max 50 (pyInt (base_response + respNoise))
  { hours_ago := hoursAgo
    cpu_usage := pyRound2 cpu_usage
    memory_usage := pyRound2 memory_usage
    response_time := response_time }

/-- `generate_system_metrics` (etl_pipeline.py lines 263-306): 24 hourly
samples; `hourOf h` is the hour-of-day of `now - h hours`, `noise h` the
three gaussian draws for that bucket. The `devices` argument of the Python
method is unused by its body and therefore not a parameter here. -/
def generate_system_metrics (hourOf : Nat → Nat) (noise : Nat → ℚ × ℚ × ℚ) : List MetricSample :=
  (List.range 24).map fun hoursAgo =>
    generateMetricSample hoursAgo (hourOf hoursAgo)
      (noise hoursAgo).1 (noise hoursAgo).2.1 (noise hoursAgo).2.2

/-! ## `etl_pipeline.py` — loading phase -/

/-- `load_devices` (etl_pipeline.py lines 310-342): per record,
`Device.objects.get_or_create(hostname=..., defaults=device_data)` — insert
the full record when no row with that hostname exists, otherwise leave the
existing row untouched; `loaded_count` counts only creations. -/
def load_devices (store : List Device) (devices : List Device) : List Device × Nat :=
  devices.foldl
    (fun acc d =>
      if acc.1.any (fun e => e.hostname == d.hostname) then acc
      else (acc.1 ++ [d], acc.2 + 1))
    (store, 0)

/-- `load_security_events` (etl_pipeline.py lines 344-368): plain
append-only `create` per record. -/
def load_security_events (store : List SecurityEvent) (events : List SecurityEvent) :
    List SecurityEvent × Nat :=
  (store ++ events, events.length)

/-- `load_system_metrics` (etl_pipeline.py lines 370-394): append-only. -/
def load_system_metrics (store : List MetricSample) (metrics : List MetricSample) :
    List MetricSample × Nat :=
  (store ++ metrics, metrics.length)

/-! ## `etl_pipeline.py` — orchestrator -/

/-- `run_pipeline` (etl_pipeline.py lines 501-572). Steps, in source order:
clear SecurityEvent, SystemMetrics and UserActivity rows (lines 514-516 —
Device rows are NOT cleared); extract the three sources; transform; load;
build the summary, whose status is `SUCCESS` exactly when the error list is
empty (line 550). The admin-user creation and report file are out of the
modelled store. -/
def run_pipeline (store : Store) (inp : PipelineInputs) (ipRand : Nat → Nat)
    (hourOf : Nat → Nat) (noise : Nat → ℚ × ℚ × ℚ) : Store × RunSummary :=
  let cleared : Store := { store with events := [], metrics := [], activities := [] }
  let exDev := extract_network_inventory inp.networkCsv
  let exEv := extract_event_logs inp.eventCsv
  let exMk := extract_marketing_data inp.marketingCsv
  let cleaned_devices := clean_network_inventory exDev.1
  let cleaned_events := clean_event_logs ipRand exEv.1
  let system_metrics := generate_system_metrics hourOf noise
  let loadDev := load_devices cleared.devices cleaned_devices
  let loadEv := load_security_events cleared.events cleaned_events
  let loadMet := load_system_metrics cleared.metrics system_metrics
  let errors := exDev.2 ++ exEv.2 ++ exMk.2
  let summary : RunSummary :=
    { pipeline_status := if errors.isEmpty then "SUCCESS" else "COMPLETED_WITH_WARNINGS"
      records_devices := loadDev.2
      records_security_events := loadEv.2
      records_system_metrics := loadMet.2
      total_records := loadDev.2 + loadEv.2 + loadMet.2
      errors_count := errors.length
      errors := errors.take 5 }
  ({ devices := loadDev.1, events := loadEv.1, metrics := loadMet.1
     activities := cleared.activities }, summary)

end ETL

namespace DbSetup

/-! ## `database_setup.py` — the setup-script variant of the pipeline -/

/-- Device-type classification inside `load_network_inventory`
(database_setup.py lines 107-115) — no `pc`/`client` branch. -/
def categorize_device_type (role : String) : String :=
  if strContains role "router" then "router"
  else if strContains role "server" then "server"
  else if strContains role "printer" then "printer"
  else "workstation"

/-- Status classification inside `load_network_inventory`
(database_setup.py lines 117-124) — no `vulnerable` and no `patch` keyword. -/
def determine_status (notes : String) : String :=
  let notes_lower := pyLower notes
  if ["no antivirus", "outdated", "no firewall"].any (fun k => strContains notes_lower k) then
    "critical"
  else if ["ssl", "tls", "update"].any (fun k => strContains notes_lower k) then "warning"
  else "active"

/-- Per-row device build of `load_network_inventory` (lines 100-133):
plain `Device.objects.create`, no IP validation, no upsert. -/
def deviceOfRow (row : RawDeviceRow) : Device :=
  let role := pyLower row.role
  let notes := pyStrip row.notes
  { hostname := pyStrip row.device
    ip_address := pyStrip row.ip_address
    device_type := categorize_device_type role
    os := pyStrip row.os
    status := determine_status notes
    notes := notes }

/-- `create_sample_devices` (database_setup.py lines 144-158). -/
def sample_devices : List Device :=
  [ ⟨"Router1", "10.0.0.1", "router", "Cisco IOS", "critical", "Default password in use"⟩,
    ⟨"WebServer1", "10.0.0.20", "server", "Ubuntu 18.04", "warning", "Outdated SSL/TLS"⟩,
    ⟨"DBServer1", "10.0.0.30", "server", "Windows 2012", "critical", "No firewall"⟩,
    ⟨"PC-Client-01", "10.0.0.101", "workstation", "Win 10 Pro", "active", ""⟩,
    ⟨"PC-Client-02", "10.0.0.102", "workstation", "Win 10 Home", "critical", "Outdated OS; no antivirus"⟩,
    ⟨"Printer-01", "10.0.0.150", "printer", "", "warning", "Unsecured printing, no password"⟩ ]

/-- `load_network_inventory` (database_setup.py lines 94-142): rows are
created one by one; a missing CSV falls back to `create_sample_devices`. -/
def load_network_inventory : Option (List RawDeviceRow) → List Device
  | some rows => rows.map deviceOfRow
  | none => sample_devices

/-- Event classification inside `load_security_events`
(database_setup.py lines 186-202) — the variant mapping `checkout` to
`transaction`/`info` and `wishlist` to `suspicious_activity`. -/
def categorize_event (event_type : String) : String × String × Bool :=
  if strContains event_type "login" then ("login_failure", "critical", true)
  else if strContains event_type "checkout" then ("transaction", "info", false)
  else if strContains event_type "wishlist" then ("suspicious_activity", "warning", true)
  else ("user_activity", "info", false)

/-- Source-IP synthesis of `load_security_events` (database_setup.py lines
204-208): driven by the `is_threat` flag. -/
def dbSourceIp (is_threat : Bool) (r : Nat) : String :=
  if is_threat then "203.0.113." ++ toString r
  else "192.168.1." ++ toString r

/-- Per-row event build of `load_security_events` (lines 175-227);
the randomized back-dated timestamp is not modelled. -/
def eventOfRow (r : Nat) (row : RawEventRow) : SecurityEvent :=
  let event_type := pyLower row.event_type
  let cat := categorize_event event_type
  let d0 := "Event: " ++ event_type
  let d1 := if row.user_id ≠ "" then d0 ++ " | User: " ++ row.user_id else d0
  let d2 := if row.product_id ≠ "" then d1 ++ " | Product: " ++ row.product_id else d1
  let d3 := if 0 < row.amount then d2 ++ " | Amount: $" ++ ETL.fmt2 row.amount else d2
  { event_type := cat.1
    severity := cat.2.1
    source_ip := dbSourceIp cat.2.2 r
    details := d3
    is_threat := cat.2.2 }

/-- The four fixed critical events appended by `load_security_events`
(database_setup.py lines 238-275), always created, CSV or not. -/
def critical_events : List SecurityEvent :=
  [ ⟨"login_failure", "critical", "203.0.113.15",
      "Multiple failed login attempts detected (50+ attempts)", true⟩,
    ⟨"malware_detected", "critical", "10.0.0.102",
      "Malware signature detected on PC-Client-02", true⟩,
    ⟨"ddos_attack", "critical", "198.51.100.1",
      "DDoS attack detected from external sources", true⟩,
    ⟨"unauthorized_access", "warning", "192.168.1.45",
      "Unauthorized admin panel access attempt", true⟩ ]

/-- `load_security_events` (database_setup.py lines 160-277): the batched
loop `for i in range(0, min(len(df), 500), 100)` processes exactly the first
`min(len(df), 500)` rows; then the four fixed critical events are appended. -/
def load_security_events (ipRand : Nat → Nat) : Option (List RawEventRow) → List SecurityEvent
  | some rows =>
    mapWithIndex (fun i row => eventOfRow (ipRand i) row) 0 (rows.take (min rows.length 500))
      ++ critical_events
  | none => critical_events

/-- Body of the metric loop of `load_system_metrics` (database_setup.py
lines 285-308); `isBizWeekday` is `is_business_hours and is_weekday`. -/
def metricOfBucket (idx : Nat) (isBizWeekday : Bool) (cpuNoise memNoise respNoise : ℚ) :
    MetricSample :=
  let base_cpu : ℚ := if isBizWeekday then 70 else 30
  let base_memory : ℚ := if isBizWeekday then 65 else 40
  let base_response : ℚ := if isBizWeekday then 150 else 80
  { hours_ago := idx
    cpu_usage := ETL.pyRound2 (max 10 (min 95 (base_cpu + cpuNoise)))
    memory_usage := ETL.pyRound2 (max 20 (min 90 (base_memory + memNoise)))
    response_time := max 50 (ETL.pyInt (base_response + respNoise)) }

/-- `load_system_metrics` (database_setup.py lines 279-310): 7 days × 12
two-hour buckets. -/
def load_system_metrics (bizOf : Nat → Bool) (noise : Nat → ℚ × ℚ × ℚ) : List MetricSample :=
  (List.range 84).map fun idx =>
    metricOfBucket idx (bizOf idx) (noise idx).1 (noise idx).2.1 (noise idx).2.2

/-- `load_user_activities` (database_setup.py lines 312-369): one activity
per marketing row (capped at 50) with a randomly chosen event type and a
192.168.1.x address; 20 fixed-shape samples when the CSV is missing. -/
def load_user_activities (choiceOf : Nat → String) (ipRand : Nat → Nat) :
    Option (List MarketingRow) → List UserActivity
  | some rows =>
    mapWithIndex (fun i _ => ⟨choiceOf i, "192.168.1." ++ toString (ipRand i)⟩) 0 (rows.take 50)
  | none =>
    (List.range 20).map fun i => ⟨choiceOf i, "192.168.1." ++ toString (ipRand i)⟩

/-- `setup_database` (database_setup.py lines 25-92): clear ALL FOUR entity
types — including `Device.objects.all().delete()` at line 73 — then reload
each from its CSV or fallback. User creation is outside the modelled store. -/
def setup_database (_store : Store) (inp : PipelineInputs) (evRand : Nat → Nat)
    (bizOf : Nat → Bool) (noise : Nat → ℚ × ℚ × ℚ)
    (choiceOf : Nat → String) (actRand : Nat → Nat) : Store :=
  { devices := load_network_inventory inp.networkCsv
    events := load_security_events evRand inp.eventCsv
    metrics := load_system_metrics bizOf noise
    activities := load_user_activities choiceOf actRand inp.marketingCsv }

end DbSetup

/-! ## Helper lemmas about the device upsert -/

/-- Store state after `ETL.load_devices`, written as a plain recursion for
proof purposes; `load_devices_fst` ties it back to the fold in the source. -/
def loadStateAux (s : List Device) : List Device → List Device
  | [] => s
  | d :: ds =>
    loadStateAux (if s.any (fun e => e.hostname == d.hostname) then s else s ++ [d]) ds

theorem load_devices_fst_aux (ds : List Device) :
    ∀ (s : List Device) (n : Nat),
      (ds.foldl
        (fun acc d =>
          if acc.1.any (fun e => e.hostname == d.hostname) then acc
          else (acc.1 ++ [d], acc.2 + 1))
        (s, n)).1 = loadStateAux s ds := by
  induction ds with
  | nil => intro s n; rfl
  | cons d ds ih =>
    intro s n
    by_cases h : s.any (fun e => e.hostname == d.hostname)
    · simp only [List.foldl_cons, loadStateAux, if_pos h, ih]
    · simp only [List.foldl_cons, loadStateAux, if_neg h, ih]

theorem load_devices_fst (s ds : List Device) :
    (ETL.load_devices s ds).1 = loadStateAux s ds :=
  load_devices_fst_aux ds s 0

theorem mem_loadStateAux_of_mem (ds : List Device) :
    ∀ (s : List Device) (e : Device), e ∈ s → e ∈ loadStateAux s ds := by
  induction ds with
  | nil => intro s e he; exact he
  | cons d ds ih =>
    intro s e he
    by_cases h : s.any (fun x => x.hostname == d.hostname)
    · rw [loadStateAux, if_pos h]
      exact ih s e he
    · rw [loadStateAux, if_neg h]
      exact ih (s ++ [d]) e (List.mem_append_left _ he)

theorem exists_hostname_loadStateAux (ds : List Device) :
    ∀ (s : List Device) (d : Device), d ∈ ds →
      ∃ e ∈ loadStateAux s ds, e.hostname = d.hostname := by
  induction ds with
  | nil => intro s d hd; cases hd
  | cons d0 ds ih =>
    intro s d hd
    by_cases h : s.any (fun x => x.hostname == d0.hostname)
    · rw [loadStateAux, if_pos h]
      rcases List.mem_cons.1 hd with rfl | hd'
      · rcases List.any_eq_true.1 h with ⟨e, he, heq⟩
        exact ⟨e, mem_loadStateAux_of_mem ds s e he, beq_iff_eq.1 heq⟩
      · exact ih s d hd'
    · rw [loadStateAux, if_neg h]
      rcases List.mem_cons.1 hd with rfl | hd'
      · exact ⟨d, mem_loadStateAux_of_mem ds (s ++ [d]) d
          (List.mem_append_right s (List.mem_singleton_self d)), rfl⟩
      · exact ih (s ++ [d0]) d hd'

theorem loadStateAux_eq_of_covered (ds : List Device) :
    ∀ s : List Device, (∀ d ∈ ds, ∃ e ∈ s, e.hostname = d.hostname) →
      loadStateAux s ds = s := by
  induction ds with
  | nil => intro s _; rfl
  | cons d ds ih =>
    intro s hcov
    have hd : s.any (fun e => e.hostname == d.hostname) = true := by
      rcases hcov d (List.mem_cons_self d ds) with ⟨e, he, heq⟩
      exact List.any_eq_true.2 ⟨e, he, beq_iff_eq.2 heq⟩
    rw [loadStateAux, if_pos hd]
    exact ih s fun d' hd' => hcov d' (List.mem_cons_of_mem d hd')

theorem loadStateAux_idem (s ds : List Device) :
    loadStateAux (loadStateAux s ds) ds = loadStateAux s ds :=
  loadStateAux_eq_of_covered ds (loadStateAux s ds)
    (fun d hd => exists_hostname_loadStateAux ds s d hd)

theorem loadStateAux_hostname_nodup (ds : List Device) :
    ∀ s : List Device, (s.map Device.hostname).Nodup →
      ((loadStateAux s ds).map Device.hostname).Nodup := by
  induction ds with
  | nil => intro s hs; exact hs
  | cons d ds ih =>
    intro s hs
    by_cases h : s.any (fun e => e.hostname == d.hostname)
    · rw [loadStateAux, if_pos h]
      exact ih s hs
    · have hfalse : s.any (fun e => e.hostname == d.hostname) = false :=
        Bool.eq_false_iff.2 h
      have habs : ∀ e ∈ s, e.hostname ≠ d.hostname := by
        intro e he heq
        exact (List.any_eq_false.1 hfalse e he) (beq_iff_eq.2 heq)
      have hnew : ((s ++ [d]).map Device.hostname).Nodup := by
        rw [List.map_append, List.map_singleton]
        refine (List.nodup_append).2 ⟨hs, List.nodup_singleton _, ?_⟩
        intro a ha hb
        rcases List.mem_map.1 ha with ⟨e, he, rfl⟩
        exact habs e he (by simpa using hb)
      rw [loadStateAux, if_neg h]
      exact ih (s ++ [d]) hnew

/-! ## Helper lemmas for the transform phase -/

theorem filterMap_guard_eq (p : α → Bool) (f : α → β) (l : List α) :
    (l.filterMap fun x => if p x then some (f x) else none) = (l.filter p).map f := by
  induction l with
  | nil => rfl
  | cons x xs ih =>
    by_cases h : p x <;> simp [List.filterMap_cons, List.filter_cons, h, ih]

/-! ## The spec-side dotted-quad grammar (for the refinement claim about
`_validate_ip_address`) -/

/-- Modelled from the spec's words: a group of one to three digits whose
decimal value lies between 0 and 255 (0 is automatic over `Nat`). -/
def IpGroupSpec (g : List Char) : Prop :=
  1 ≤ g.length ∧ g.length ≤ 3 ∧ (∀ c ∈ g, c.isDigit = true) ∧ ETL.groupVal g ≤ 255

/-- Modelled from the spec's words: the character list consists of exactly
four dot-separated digit groups, each satisfying `IpGroupSpec`. -/
def DottedQuadChars (l : List Char) : Prop :=
  ∃ a b c d : List Char,
    l = a ++ '.' :: (b ++ '.' :: (c ++ '.' :: d)) ∧
    IpGroupSpec a ∧ IpGroupSpec b ∧ IpGroupSpec c ∧ IpGroupSpec d

/-- The claim's grammar on a string: the string itself consists of exactly
four dot-separated digit groups. -/
def DottedQuadSpec (s : String) : Prop :=
  DottedQuadChars s.toList

theorem isIpGroupB_iff (g : List Char) :
    (ETL.isIpGroupB g = true ∧ decide (ETL.groupVal g ≤ 255) = true) ↔ IpGroupSpec g := by
  simp [ETL.isIpGroupB, IpGroupSpec, List.all_eq_true, Bool.and_eq_true,
    decide_eq_true_eq, and_assoc]

theorem not_dot_mem_of_digits {g : List Char} (h : ∀ c ∈ g, c.isDigit = true) :
    '.' ∉ g := fun hm => absurd (h '.' hm) (by decide)

theorem quadCheck_iff (l : List Char) :
    ETL.quadCheck l = true ↔ DottedQuadChars l := by
  constructor
  · intro h
    unfold ETL.quadCheck at h
    rcases hsplit : splitDots l with _ | ⟨a, _ | ⟨b, _ | ⟨c, _ | ⟨d, _ | ⟨e, tl⟩⟩⟩⟩⟩ <;>
      rw [hsplit] at h
    case nil => exact Bool.noConfusion h
    case cons.nil => exact Bool.noConfusion h
    case cons.cons.nil => exact Bool.noConfusion h
    case cons.cons.cons.nil => exact Bool.noConfusion h
    case cons.cons.cons.cons.cons => exact Bool.noConfusion h
    case cons.cons.cons.cons.nil =>
      have h' : ((ETL.isIpGroupB a && ETL.isIpGroupB b && ETL.isIpGroupB c && ETL.isIpGroupB d) &&
          (decide (ETL.groupVal a ≤ 255) && decide (ETL.groupVal b ≤ 255) &&
           decide (ETL.groupVal c ≤ 255) && decide (ETL.groupVal d ≤ 255))) = true := h
      simp only [Bool.and_eq_true] at h'
      have hjoin := joinDots_splitDots l
      rw [hsplit] at hjoin
      simp only [joinDots] at hjoin
      exact ⟨a, b, c, d, hjoin.symm,
        (isIpGroupB_iff a).1 ⟨h'.1.1.1.1, h'.2.1.1.1⟩,
        (isIpGroupB_iff b).1 ⟨h'.1.1.1.2, h'.2.1.1.2⟩,
        (isIpGroupB_iff c).1 ⟨h'.1.1.2, h'.2.1.2⟩,
        (isIpGroupB_iff d).1 ⟨h'.1.2, h'.2.2⟩⟩
  · rintro ⟨a, b, c, d, hs, ha, hb, hc, hd⟩
    have hsplit : splitDots l = [a, b, c, d] := by
      rw [hs, splitDots_append_cons a _ (not_dot_mem_of_digits ha.2.2.1),
        splitDots_append_cons b _ (not_dot_mem_of_digits hb.2.2.1),
        splitDots_append_cons c _ (not_dot_mem_of_digits hc.2.2.1),
        splitDots_of_not_mem d (not_dot_mem_of_digits hd.2.2.1)]
    have ha' := (isIpGroupB_iff a).2 ha
    have hb' := (isIpGroupB_iff b).2 hb
    have hc' := (isIpGroupB_iff c).2 hc
    have hd' := (isIpGroupB_iff d).2 hd
    unfold ETL.quadCheck
    rw [hsplit]
    show ((ETL.isIpGroupB a && ETL.isIpGroupB b && ETL.isIpGroupB c && ETL.isIpGroupB d) &&
        (decide (ETL.groupVal a ≤ 255) && decide (ETL.groupVal b ≤ 255) &&
         decide (ETL.groupVal c ≤ 255) && decide (ETL.groupVal d ≤ 255))) = true
    simp only [Bool.and_eq_true]
    exact ⟨⟨⟨⟨ha'.1, hb'.1⟩, hc'.1⟩, hd'.1⟩, ⟨⟨⟨ha'.2, hb'.2⟩, hc'.2⟩, hd'.2⟩⟩

theorem validate_ip_iff (s : String) :
    ETL.validate_ip_address s = true ↔ DottedQuadChars (stripFinalNewline s.toList) :=
  quadCheck_iff (stripFinalNewline s.toList)

theorem mem_digit_or_dot_of_quad {l : List Char} (h : DottedQuadChars l) :
    ∀ ch ∈ l, ch.isDigit = true ∨ ch = '.' := by
  rcases h with ⟨a, b, c, d, rfl, ha, hb, hc, hd⟩
  intro ch hch
  simp only [List.mem_append, List.mem_cons] at hch
  rcases hch with h1 | h1 | h1 | h1 | h1 | h1 | h1
  · exact Or.inl (ha.2.2.1 ch h1)
  · exact Or.inr h1
  · exact Or.inl (hb.2.2.1 ch h1)
  · exact Or.inr h1
  · exact Or.inl (hc.2.2.1 ch h1)
  · exact Or.inr h1
  · exact Or.inl (hd.2.2.1 ch h1)

/-! ## Helper lemmas about `ETL.pyRound2` and `pyInt` -/

theorem pyRound2_le (q : ℚ) : ETL.pyRound2 q ≤ q + 1 / 100 := by
  unfold ETL.pyRound2
  have h := Int.floor_le (q * 100 + 1 / 2)
  rw [div_le_iff₀ (by norm_num : (0 : ℚ) < 100)]
  linarith

theorem le_pyRound2 (q : ℚ) : q - 1 / 100 ≤ ETL.pyRound2 q := by
  unfold ETL.pyRound2
  have h := Int.lt_floor_add_one (q * 100 + 1 / 2)
  rw [le_div_iff₀ (by norm_num : (0 : ℚ) < 100)]
  linarith

theorem clamp_round_bounds (lo hi e : ℚ) (h0 : (0 : ℚ) ≤ lo - 1 / 100)
    (h1 : hi + 1 / 100 ≤ 100) (hlh : lo ≤ hi) :
    0 ≤ ETL.pyRound2 (max lo (min hi e)) ∧ ETL.pyRound2 (max lo (min hi e)) ≤ 100 := by
  have hx1 : lo ≤ max lo (min hi e) := le_max_left _ _
  have hx2 : max lo (min hi e) ≤ hi := max_le hlh (min_le_left _ _)
  have hu := pyRound2_le (max lo (min hi e))
  have hl := le_pyRound2 (max lo (min hi e))
  constructor <;> linarith

/-! ## Concrete data used by witnesses and counterexamples -/

/-- A valid network-inventory row (IP `10.0.0.n`). -/
def validDeviceRow (n : Nat) : RawDeviceRow :=
  ⟨"dev" ++ toString n, "10.0.0." ++ toString n, "Server", "Linux", ""⟩

/-- A network-inventory row whose IP fails dotted-quad validation. -/
def invalidIpRow : RawDeviceRow := ⟨"badbox", "256.1.1.1", "Server", "Linux", ""⟩

/-- Ten valid rows followed by one invalid-IP row. -/
def elevenRows : List RawDeviceRow :=
  (List.range 10).map (fun n => validDeviceRow (n + 1)) ++ [invalidIpRow]

/-- A device present in the store before a run. -/
def keepDevice : Device := ⟨"KeepMe", "10.0.0.9", "server", "Linux", "active", ""⟩

/-- A cleaned device used to exercise the upsert. -/
def witnessDevice : Device := ⟨"web-01", "10.0.0.20", "server", "Ubuntu", "active", ""⟩

/-- A raw event row used to exercise the event transform. -/
def sampleEventRow : RawEventRow := ⟨"checkout", "u1", "p1", 5⟩

/-- Zero draw for integer-valued random parameters. -/
def zeroNat : Nat → Nat := fun _ => 0

/-- Zero draw for the three gaussian noise terms. -/
def zeroNoise : Nat → ℚ × ℚ × ℚ := fun _ => (0, 0, 0)

/-! ## The claims -/

/-- C1 (counterexample): in `clean_network_inventory` the invalid-IP branch
(etl_pipeline.py lines 177-179) only logs a warning and `continue`s — it
never appends to `self.errors`. Hence a batch of 10 valid rows plus 1
invalid-IP row yields 10 loaded devices but 0 recorded errors and a
`SUCCESS` run status, not the claimed 1 error and
`COMPLETED_WITH_WARNINGS`. -/
theorem c1_counterexample :
    (ETL.run_pipeline emptyStore ⟨some elevenRows, some [], some []⟩ zeroNat zeroNat
        zeroNoise).2.records_devices = 10 ∧
    (ETL.run_pipeline emptyStore ⟨some elevenRows, some [], some []⟩ zeroNat zeroNat
        zeroNoise).2.errors_count = 0 ∧
    (ETL.run_pipeline emptyStore ⟨some elevenRows, some [], some []⟩ zeroNat zeroNat
        zeroNoise).2.pipeline_status = "SUCCESS" ∧
    ¬((ETL.run_pipeline emptyStore ⟨some elevenRows, some [], some []⟩ zeroNat zeroNat
        zeroNoise).2.errors_count = 1 ∧
      (ETL.run_pipeline emptyStore ⟨some elevenRows, some [], some []⟩ zeroNat zeroNat
        zeroNoise).2.pipeline_status = "COMPLETED_WITH_WARNINGS") :=
  ⟨by decide, by decide, by decide, by decide⟩

/-- C1 (amended): a network-inventory row whose IP fails dotted-quad
validation is dropped (never loaded as a Device) and processing of the
remaining rows continues, but the drop is only logged — no entry joins the
run error list; consequently 10 valid rows plus 1 invalid-IP row yield
exactly 10 loaded devices, 0 recorded errors, and a run summary with
`pipeline_status = SUCCESS`. -/
theorem c1_main :
    (∀ rows : List RawDeviceRow,
      ETL.clean_network_inventory rows =
        ((rows.filter fun row => ETL.validate_ip_address (pyStrip row.ip_address)).map
          ETL.cleanDeviceRow)) ∧
    (ETL.run_pipeline emptyStore ⟨some elevenRows, some [], some []⟩ zeroNat zeroNat
        zeroNoise).2.records_devices = 10 ∧
    (ETL.run_pipeline emptyStore ⟨some elevenRows, some [], some []⟩ zeroNat zeroNat
        zeroNoise).2.errors_count = 0 ∧
    (ETL.run_pipeline emptyStore ⟨some elevenRows, some [], some []⟩ zeroNat zeroNat
        zeroNoise).2.pipeline_status = "SUCCESS" :=
  ⟨fun rows => filterMap_guard_eq _ _ rows, by decide, by decide, by decide⟩

/-- C2: device loading is idempotent and duplicate-free — loading a cleaned
device list twice leaves the store, its row count, and each hostname's
`(device_type, status)` exactly as after one load, and (from a
duplicate-free store) no two Device rows ever share a hostname. -/
theorem c2_main (s ds : List Device) (h : (s.map Device.hostname).Nodup) :
    (ETL.load_devices (ETL.load_devices s ds).1 ds).1 = (ETL.load_devices s ds).1 ∧
    (ETL.load_devices (ETL.load_devices s ds).1 ds).1.length
      = (ETL.load_devices s ds).1.length ∧
    ((ETL.load_devices (ETL.load_devices s ds).1 ds).1.map
        fun d => (d.hostname, d.device_type, d.status))
      = ((ETL.load_devices s ds).1.map fun d => (d.hostname, d.device_type, d.status)) ∧
    ((ETL.load_devices s ds).1.map Device.hostname).Nodup := by
  have hidem : (ETL.load_devices (ETL.load_devices s ds).1 ds).1 = (ETL.load_devices s ds).1 := by
    rw [load_devices_fst, load_devices_fst]
    exact loadStateAux_idem s ds
  refine ⟨hidem, by rw [hidem], by rw [hidem], ?_⟩
  rw [load_devices_fst]
  exact loadStateAux_hostname_nodup ds s h

/-- C2 (witness): the guarantees at a concrete store and device list. -/
theorem c2_witness :
    (ETL.load_devices (ETL.load_devices [keepDevice] [witnessDevice]).1 [witnessDevice]).1
      = (ETL.load_devices [keepDevice] [witnessDevice]).1 ∧
    ((ETL.load_devices [keepDevice] [witnessDevice]).1.map Device.hostname).Nodup :=
  ⟨(c2_main [keepDevice] [witnessDevice] (by decide)).1,
   (c2_main [keepDevice] [witnessDevice] (by decide)).2.2.2⟩

/-- C3: event classification is a total first-match precedence function —
`login` wins over everything, then `checkout` (mapped to the
`suspicious_traffic`/`warning`/non-threat variant of this pipeline), then
`wishlist`, then `profile`, and every other string falls through to the
default `(suspicious_traffic, info, false)`. -/
theorem c3_main (s : String) :
    (strContains (pyLower s) "login" = true →
      ETL.categorize_security_event s = ("login_failure", "critical", true)) ∧
    (strContains (pyLower s) "login" = false → strContains (pyLower s) "checkout" = true →
      ETL.categorize_security_event s = ("suspicious_traffic", "warning", false)) ∧
    (strContains (pyLower s) "login" = false → strContains (pyLower s) "checkout" = false →
      strContains (pyLower s) "wishlist" = true →
      ETL.categorize_security_event s = ("unauthorized_access", "warning", true)) ∧
    (strContains (pyLower s) "login" = false → strContains (pyLower s) "checkout" = false →
      strContains (pyLower s) "wishlist" = false → strContains (pyLower s) "profile" = true →
      ETL.categorize_security_event s = ("suspicious_traffic", "info", false)) ∧
    (strContains (pyLower s) "login" = false → strContains (pyLower s) "checkout" = false →
      strContains (pyLower s) "wishlist" = false → strContains (pyLower s) "profile" = false →
      ETL.categorize_security_event s = ("suspicious_traffic", "info", false)) := by
  refine ⟨?_, ?_, ?_, ?_, ?_⟩
  · intro h1
    simp [ETL.categorize_security_event, h1]
  · intro h1 h2
    simp [ETL.categorize_security_event, h1, h2]
  · intro h1 h2 h3
    simp [ETL.categorize_security_event, h1, h2, h3]
  · intro h1 h2 h3 h4
    simp [ETL.categorize_security_event, h1, h2, h3, h4]
  · intro h1 h2 h3 h4
    simp [ETL.categorize_security_event, h1, h2, h3, h4]

/-- C3 (witness): one concrete input per branch of the classifier. -/
theorem c3_witness :
    ETL.categorize_security_event "Failed Login" = ("login_failure", "critical", true) ∧
    ETL.categorize_security_event "checkout cart" = ("suspicious_traffic", "warning", false) ∧
    ETL.categorize_security_event "add wishlist" = ("unauthorized_access", "warning", true) ∧
    ETL.categorize_security_event "view profile" = ("suspicious_traffic", "info", false) ∧
    ETL.categorize_security_event "pageview" = ("suspicious_traffic", "info", false) :=
  ⟨(c3_main "Failed Login").1 (by decide),
   (c3_main "checkout cart").2.1 (by decide) (by decide),
   (c3_main "add wishlist").2.2.1 (by decide) (by decide) (by decide),
   (c3_main "view profile").2.2.2.1 (by decide) (by decide) (by decide) (by decide),
   (c3_main "pageview").2.2.2.2 (by decide) (by decide) (by decide) (by decide)⟩

/-- C4 (counterexample): the claim fails for the `database_setup.py` run —
its run-start clear step (`setup_database`, lines 70-73) bulk-deletes the
Device rows too, so a device present before that run is gone after it. -/
theorem c4_counterexample :
    keepDevice ∈ (Store.mk [keepDevice] [] [] []).devices ∧
    keepDevice ∉ (DbSetup.setup_database (Store.mk [keepDevice] [] [] [])
      ⟨some [], some [], some []⟩ zeroNat (fun _ => false) zeroNoise
      (fun _ => "login") zeroNat).devices :=
  ⟨by decide, by decide⟩

/-- C4 (amended): the `etl_pipeline.py` orchestrator never bulk-deletes
Device rows — its run-start clear step removes only SecurityEvent,
SystemMetrics and UserActivity rows, and devices are written exclusively
through the hostname-keyed upsert, so every Device row present before a
`run_pipeline` invocation still exists after it; the `database_setup.py`
variant, by contrast, does clear Device rows at run start. -/
theorem c4_main (store : Store) (inp : PipelineInputs) (ipRand hourOf : Nat → Nat)
    (noise : Nat → ℚ × ℚ × ℚ) (d : Device) (hd : d ∈ store.devices) :
    d ∈ (ETL.run_pipeline store inp ipRand hourOf noise).1.devices := by
  show d ∈ (ETL.load_devices store.devices
    (ETL.clean_network_inventory (ETL.extract_network_inventory inp.networkCsv).1)).1
  rw [load_devices_fst]
  exact mem_loadStateAux_of_mem _ store.devices d hd

/-- C4 (witness): a concrete pre-existing device survives a concrete
`run_pipeline` invocation. -/
theorem c4_witness :
    keepDevice ∈ (ETL.run_pipeline (Store.mk [keepDevice] [] [] [])
      ⟨some elevenRows, some [], some []⟩ zeroNat zeroNat zeroNoise).1.devices :=
  c4_main (Store.mk [keepDevice] [] [] []) ⟨some elevenRows, some [], some []⟩
    zeroNat zeroNat zeroNoise keepDevice (by decide)

/-- C5 (counterexample): in the `etl_pipeline.py` transform the source IP
depends on the raw label containing `login`, not on the threat flag: a
`wishlist` event is classified `is_threat = true` yet receives a
`192.168.1.x` address, not one in the 203.0.113.x / 198.51.100.x
documentation ranges. -/
theorem c5_counterexample :
    (ETL.cleanEventRow 7 ⟨"wishlist", "u1", "", 0⟩).is_threat = true ∧
    startsWithChars "203.0.113.".toList
      (ETL.cleanEventRow 7 ⟨"wishlist", "u1", "", 0⟩).source_ip.toList = false ∧
    startsWithChars "198.51.100.".toList
      (ETL.cleanEventRow 7 ⟨"wishlist", "u1", "", 0⟩).source_ip.toList = false ∧
    (ETL.cleanEventRow 7 ⟨"wishlist", "u1", "", 0⟩).source_ip = "192.168.1.7" :=
  ⟨by decide, by decide, by decide, by decide⟩

/-- C5 (amended): in `etl_pipeline.py`, every event classified
`is_threat = false` receives a `192.168.1.x` address, and an event whose
raw label contains `login` receives a `203.0.113.x` address — but a
threat-classified event without `login` in its label (a `wishlist` event)
also receives `192.168.1.x`; the `database_setup.py` variant is the one
that keys the address on the threat flag exactly as claimed. -/
theorem c5_main (s : String) (r : Nat) :
    ((ETL.categorize_security_event s).2.2 = false →
      ETL.generate_source_ip s r = "192.168.1." ++ toString r) ∧
    (strContains (pyLower s) "login" = true →
      ETL.generate_source_ip s r = "203.0.113." ++ toString r) ∧
    ((ETL.categorize_security_event s).2.2 = true → strContains (pyLower s) "login" = false →
      ETL.generate_source_ip s r = "192.168.1." ++ toString r) ∧
    (∀ t : Bool, DbSetup.dbSourceIp t r =
      if t then "203.0.113." ++ toString r else "192.168.1." ++ toString r) := by
  refine ⟨?_, ?_, ?_, fun t => rfl⟩
  · intro h
    by_cases hl : strContains (pyLower s) "login"
    · exfalso
      simp [ETL.categorize_security_event, hl] at h
    · simp [ETL.generate_source_ip, hl]
  · intro hl
    simp [ETL.generate_source_ip, hl]
  · intro _ hl
    simp [ETL.generate_source_ip, hl]

/-- C5 (witness): the amended behaviour at concrete labels and octets. -/
theorem c5_witness :
    ETL.generate_source_ip "checkout" 9 = "192.168.1.9" ∧
    ETL.generate_source_ip "failed login" 3 = "203.0.113.3" ∧
    ETL.generate_source_ip "wishlist" 7 = "192.168.1.7" :=
  ⟨(c5_main "checkout" 9).1 (by decide),
   (c5_main "failed login" 3).2.1 (by decide),
   (c5_main "wishlist" 7).2.2.1 (by decide) (by decide)⟩

/-- C6: device status classification is total and follows first-match
keyword precedence over the lower-cased notes — any critical keyword
(`no antivirus`, `outdated`, `no firewall`, `vulnerable`) yields
`critical` regardless of warning keywords; otherwise any warning keyword
(`ssl`, `tls`, `update`, `patch`) yields `warning`; otherwise `active`. -/
theorem c6_main (notes : String) :
    ((ETL.critical_keywords.any fun k => strContains (pyLower notes) k) = true →
      ETL.determine_device_status notes = "critical") ∧
    ((ETL.critical_keywords.any fun k => strContains (pyLower notes) k) = false →
      (ETL.warning_keywords.any fun k => strContains (pyLower notes) k) = true →
      ETL.determine_device_status notes = "warning") ∧
    ((ETL.critical_keywords.any fun k => strContains (pyLower notes) k) = false →
      (ETL.warning_keywords.any fun k => strContains (pyLower notes) k) = false →
      ETL.determine_device_status notes = "active") := by
  refine ⟨?_, ?_, ?_⟩
  · intro h1
    simp [ETL.determine_device_status, h1]
  · intro h1 h2
    simp [ETL.determine_device_status, h1, h2]
  · intro h1 h2
    simp [ETL.determine_device_status, h1, h2]

/-- C6 (witness): in particular, notes containing both the critical keyword
`no antivirus` and the warning keyword `update` classify as `critical`;
plus one concrete input for each other branch. -/
theorem c6_witness :
    ETL.determine_device_status "No Antivirus; please update" = "critical" ∧
    ETL.determine_device_status "needs patch" = "warning" ∧
    ETL.determine_device_status "all good" = "active" :=
  ⟨(c6_main "No Antivirus; please update").1 (by decide),
   (c6_main "needs patch").2.1 (by decide) (by decide),
   (c6_main "all good").2.2 (by decide) (by decide)⟩

/-- C7 (counterexample): the claimed if-and-only-if is false of the
program — Python's `$` anchor also matches just before one trailing
newline and `int()` strips whitespace, so `_validate_ip_address` accepts
the nine-character string `1.2.3.4` + newline, which does not consist of
four dot-separated digit groups. -/
theorem c7_counterexample :
    ETL.validate_ip_address "1.2.3.4\n" = true ∧ ¬DottedQuadSpec "1.2.3.4\n" := by
  refine ⟨by decide, fun h => ?_⟩
  rcases mem_digit_or_dot_of_quad h '\n' (by decide) with hd | hd
  · exact absurd hd (by decide)
  · exact absurd hd (by decide)

/-- C7 (amended): over ASCII inputs, a string is accepted by
`_validate_ip_address` iff — after discarding the single trailing newline
that the `$` anchor tolerates and `int()` strips, when present — it
consists of exactly four dot-separated groups of 1-3 digits with each
group's value between 0 and 255. In particular `1.2.3.4` + newline is
accepted although it is not itself a dotted quad, while `"256.1.1.1"`,
`"1.2.3"`, `"abc.def.gh.i"` stay rejected and `"0.0.0.0"`,
`"255.255.255.255"` stay accepted. (Beyond ASCII, Python's `\d` and
`int()` additionally accept Unicode decimal digits — a further departure
from the claimed grammar, outside this embedding's ASCII digit model.) -/
theorem c7_main :
    (∀ s : String, (∀ ch ∈ s.toList, ch.toNat < 128) →
      (ETL.validate_ip_address s = true ↔ DottedQuadChars (stripFinalNewline s.toList))) ∧
    ETL.validate_ip_address "1.2.3.4\n" = true ∧
    ¬DottedQuadChars ("1.2.3.4\n" : String).toList ∧
    DottedQuadChars (stripFinalNewline ("1.2.3.4\n" : String).toList) ∧
    ETL.validate_ip_address "256.1.1.1" = false ∧
    ETL.validate_ip_address "1.2.3" = false ∧
    ETL.validate_ip_address "abc.def.gh.i" = false ∧
    ETL.validate_ip_address "0.0.0.0" = true ∧
    ETL.validate_ip_address "255.255.255.255" = true := by
  refine ⟨fun s _ => validate_ip_iff s, by decide, fun h => ?_, ?_,
    by decide, by decide, by decide, by decide, by decide⟩
  · rcases mem_digit_or_dot_of_quad h '\n' (by decide) with hd | hd
    · exact absurd hd (by decide)
    · exact absurd hd (by decide)
  · exact ⟨['1'], ['2'], ['3'], ['4'], by decide,
      (isIpGroupB_iff _).1 ⟨by decide, by decide⟩,
      (isIpGroupB_iff _).1 ⟨by decide, by decide⟩,
      (isIpGroupB_iff _).1 ⟨by decide, by decide⟩,
      (isIpGroupB_iff _).1 ⟨by decide, by decide⟩⟩

/-- C7 (witness): the amended equivalence instantiated at a concrete ASCII
input. -/
theorem c7_witness :
    ETL.validate_ip_address "0.0.0.0" = true ↔
      DottedQuadChars (stripFinalNewline ("0.0.0.0" : String).toList) :=
  c7_main.1 "0.0.0.0" (by decide)

theorem generateMetricSample_bounds (hoursAgo hour : Nat) (cn mn rn : ℚ) :
    0 ≤ (ETL.generateMetricSample hoursAgo hour cn mn rn).cpu_usage ∧
    (ETL.generateMetricSample hoursAgo hour cn mn rn).cpu_usage ≤ 100 ∧
    0 ≤ (ETL.generateMetricSample hoursAgo hour cn mn rn).memory_usage ∧
    (ETL.generateMetricSample hoursAgo hour cn mn rn).memory_usage ≤ 100 ∧
    0 < (ETL.generateMetricSample hoursAgo hour cn mn rn).response_time := by
  simp only [ETL.generateMetricSample]
  refine ⟨?_, ?_, ?_, ?_, ?_⟩
  · exact (clamp_round_bounds 10 95 _ (by norm_num) (by norm_num) (by norm_num)).1
  · exact (clamp_round_bounds 10 95 _ (by norm_num) (by norm_num) (by norm_num)).2
  · exact (clamp_round_bounds 20 90 _ (by norm_num) (by norm_num) (by norm_num)).1
  · exact (clamp_round_bounds 20 90 _ (by norm_num) (by norm_num) (by norm_num)).2
  · exact lt_of_lt_of_le (by norm_num) (le_max_left 50 _)

/-- C8: every generated synthetic metric sample has
`cpu_usage ∈ [0,100]`, `memory_usage ∈ [0,100]` and `response_time > 0`,
for every possible value of the gaussian noise terms. -/
theorem c8_main (hourOf : Nat → Nat) (noise : Nat → ℚ × ℚ × ℚ) (m : MetricSample)
    (hm : m ∈ ETL.generate_system_metrics hourOf noise) :
    0 ≤ m.cpu_usage ∧ m.cpu_usage ≤ 100 ∧ 0 ≤ m.memory_usage ∧ m.memory_usage ≤ 100 ∧
      0 < m.response_time := by
  unfold ETL.generate_system_metrics at hm
  rcases List.mem_map.1 hm with ⟨h, -, rfl⟩
  exact generateMetricSample_bounds h (hourOf h) (noise h).1 (noise h).2.1 (noise h).2.2

/-- C8 (witness): the range invariant at the first concrete sample of a
zero-noise generation. -/
theorem c8_witness :
    0 ≤ (ETL.generateMetricSample 0 0 0 0 0).cpu_usage ∧
    (ETL.generateMetricSample 0 0 0 0 0).cpu_usage ≤ 100 ∧
    0 ≤ (ETL.generateMetricSample 0 0 0 0 0).memory_usage ∧
    (ETL.generateMetricSample 0 0 0 0 0).memory_usage ≤ 100 ∧
    0 < (ETL.generateMetricSample 0 0 0 0 0).response_time :=
  c8_main zeroNat zeroNoise (ETL.generateMetricSample 0 0 0 0 0) (by
    unfold ETL.generate_system_metrics
    exact List.mem_map.2 ⟨0, by decide, rfl⟩)

/-- C9 (counterexample): running the `etl_pipeline.py` orchestrator from an
empty store with no CSV files present leaves the device and event sets
EMPTY — there is no sample fallback in that pipeline — even though the
summary is `COMPLETED_WITH_WARNINGS`; this refutes the claimed non-empty
device/event store. -/
theorem c9_counterexample :
    (ETL.run_pipeline emptyStore ⟨none, none, none⟩ zeroNat zeroNat zeroNoise).1.devices
        = [] ∧
    (ETL.run_pipeline emptyStore ⟨none, none, none⟩ zeroNat zeroNat zeroNoise).1.events
        = [] ∧
    (ETL.run_pipeline emptyStore ⟨none, none, none⟩ zeroNat zeroNat
        zeroNoise).2.pipeline_status = "COMPLETED_WITH_WARNINGS" :=
  ⟨by decide, by decide, by decide⟩

/-- C9 (amended): with no CSV files present, every `etl_pipeline.py`
extraction returns an empty table and the run still completes with a
`COMPLETED_WITH_WARNINGS` summary, but it adds no devices or events; the
documented fixed sample fallback lives in the `database_setup.py` variant,
whose file-less run produces exactly the 6 fixed sample devices and the 4
fixed critical events (non-empty device and event sets). -/
theorem c9_main (store store2 : Store) (ipRand hourOf : Nat → Nat)
    (noise : Nat → ℚ × ℚ × ℚ) (evRand : Nat → Nat) (bizOf : Nat → Bool)
    (noise2 : Nat → ℚ × ℚ × ℚ) (choiceOf : Nat → String) (actRand : Nat → Nat) :
    (ETL.run_pipeline store ⟨none, none, none⟩ ipRand hourOf noise).2.pipeline_status
      = "COMPLETED_WITH_WARNINGS" ∧
    (ETL.run_pipeline store ⟨none, none, none⟩ ipRand hourOf noise).1.devices
      = store.devices ∧
    (ETL.run_pipeline store ⟨none, none, none⟩ ipRand hourOf noise).1.events = [] ∧
    (DbSetup.setup_database store2 ⟨none, none, none⟩ evRand bizOf noise2 choiceOf
        actRand).devices = DbSetup.sample_devices ∧
    (DbSetup.setup_database store2 ⟨none, none, none⟩ evRand bizOf noise2 choiceOf
        actRand).devices.length = 6 ∧
    (DbSetup.setup_database store2 ⟨none, none, none⟩ evRand bizOf noise2 choiceOf
        actRand).events = DbSetup.critical_events ∧
    (DbSetup.setup_database store2 ⟨none, none, none⟩ evRand bizOf noise2 choiceOf
        actRand).events.length = 4 :=
  ⟨rfl, rfl, rfl, rfl, rfl, rfl, rfl⟩

/-- C10: event-log transformation is silently truncated to the first
`min(100, |rows|)` rows — the cleaned list is exactly the indexed transform
of `rows.take 100`, loading appends exactly that many events, and a table
with more than 100 rows yields exactly 100 events; dropped rows are not
recorded as errors (the transform's output is the only thing loading
consumes, and the run error list is untouched by `clean_event_logs`). -/
theorem c10_main (ipRand : Nat → Nat) (rows : List RawEventRow)
    (store : List SecurityEvent) :
    (ETL.clean_event_logs ipRand rows).length = min 100 rows.length ∧
    ETL.clean_event_logs ipRand rows
      = mapWithIndex (fun i row => ETL.cleanEventRow (ipRand i) row) 0 (rows.take 100) ∧
    (ETL.load_security_events store (ETL.clean_event_logs ipRand rows)).1.length
      = store.length + min 100 rows.length ∧
    (ETL.load_security_events store (ETL.clean_event_logs ipRand rows)).2
      = min 100 rows.length ∧
    (100 < rows.length → (ETL.clean_event_logs ipRand rows).length = 100) := by
  have htake : rows.take (min 100 rows.length) = rows.take 100 := by
    apply List.take_eq_take.2
    omega
  have hlen : (ETL.clean_event_logs ipRand rows).length = min 100 rows.length := by
    simp only [ETL.clean_event_logs]
    rw [length_mapWithIndex, List.length_take]
    omega
  refine ⟨hlen, ?_, ?_, ?_, fun h => by rw [hlen]; omega⟩
  · simp only [ETL.clean_event_logs]
    rw [htake]
  · show (store ++ ETL.clean_event_logs ipRand rows).length = _
    rw [List.length_append, hlen]
  · show (ETL.clean_event_logs ipRand rows).length = _
    exact hlen

/-- C10 (witness): a 105-row table produces exactly 100 security events. -/
theorem c10_witness :
    (ETL.clean_event_logs zeroNat (List.replicate 105 sampleEventRow)).length = 100 :=
  (c10_main zeroNat (List.replicate 105 sampleEventRow) []).2.2.2.2 (by simp)
